import Mathlib

/-!
Verification of the zoom/pan interaction engine of the mermaidcn repository.

The repository ships several iterations of the same zoom/pan component:
* `src/registry/mermaidcn/zoom-pan.tsx` — the distributed DOM-transform
  component (state-based, no physics loop; a simple momentum loop).
* `src/components/zoom-pan.tsx` — a concatenation of evolving variants:
  - variant 1: DOM transform with a target/current physics loop
    (friction 0.92, lerp 0.1 / 0.06, stop without snapping);
  - variant 2: the high-performance DOM variant with a time-scaled
    physics loop (friction 0.95 per reference frame, lerp factor 0.12,
    stop with an exact snap of current to target);
  - canvas variant: a bitmap-canvas presentation with its own wheel
    handler and an unclamped `getCenterTransform`.

The embedding below translates the arithmetic of these handlers.  Pure
rational arithmetic (`ℚ`) is used wherever the source only adds, multiplies,
divides, clamps and compares, so concrete runs evaluate exactly;
`ℝ` is used where `Math.exp` / `Math.sqrt` appear.  The physics loops are
modelled at the reference frame interval (dt = 16.667ms, i.e. timeScale = 1),
which is the setting every tested property of the spec states.
-/

/-- A transform triple as the physics loops keep it in `targetRef` /
`currentRef`: `{ scale, x, y }`. -/
structure Transform where
  scale : ℚ
  x : ℚ
  y : ℚ
deriving DecidableEq, Repr

/-- A velocity pair `{ x, y }` as kept in `velocityRef`. -/
structure Vec2 where
  x : ℚ
  y : ℚ
deriving DecidableEq, Repr

/-- The mutable state the animation loops of `src/components/zoom-pan.tsx`
read and write each frame: `targetRef`, `currentRef`, `velocityRef` and the
gesture flags `isDragging` / `isPinching`. -/
structure PhysState where
  target : Transform
  current : Transform
  velocity : Vec2
  isDragging : Bool
  isPinching : Bool
deriving DecidableEq, Repr

namespace Registry

/-- The committed React state of `src/registry/mermaidcn/zoom-pan.tsx`
(`ZoomPanState`). -/
structure ZoomPanState where
  scale : ℚ
  translateX : ℚ
  translateY : ℚ
  isImmediate : Bool
deriving DecidableEq, Repr

/-- `applyZoomToPoint` of `src/registry/mermaidcn/zoom-pan.tsx` (lines
130-150): clamp `prev.scale + delta` to `[minScale, maxScale]` and zoom
around `point` with the ratio of new to old scale. -/
def applyZoomToPoint (minScale maxScale delta px py : ℚ)
    (prev : ZoomPanState) : ZoomPanState :=
  let newScale := min maxScale (max minScale (prev.scale + delta))
  let ratio := newScale / prev.scale
  { scale := newScale
    translateX := px - (px - prev.translateX) * ratio
    translateY := py - (py - prev.translateY) * ratio
    isImmediate := false }

/-- `zoomIn`: `applyZoomToPoint zoomStep (container center)`. -/
def zoomIn (minScale maxScale zoomStep px py : ℚ)
    (prev : ZoomPanState) : ZoomPanState :=
  applyZoomToPoint minScale maxScale zoomStep px py prev

/-- `zoomOut`: `applyZoomToPoint (-zoomStep) (container center)`. -/
def zoomOut (minScale maxScale zoomStep px py : ℚ)
    (prev : ZoomPanState) : ZoomPanState :=
  applyZoomToPoint minScale maxScale (-zoomStep) px py prev

/-- A sequence of zoom-button presses: fold `applyZoomToPoint` over the list
of step deltas (`zoomStep` for zoomIn, `-zoomStep` for zoomOut). -/
def zoomSeq (minScale maxScale px py : ℚ) (deltas : List ℚ)
    (s : ZoomPanState) : ZoomPanState :=
  deltas.foldl (fun st d => applyZoomToPoint minScale maxScale d px py st) s

/-- `centerView` of `src/registry/mermaidcn/zoom-pan.tsx` (lines 170-208):
guard on zero content size, fit with padding 40, clamp the fit scale, center
the scaled content.  `none` models the early `return` (no state write). -/
def centerView (minScale maxScale containerWidth containerHeight
    contentWidth contentHeight : ℚ) : Option ZoomPanState :=
  if contentWidth = 0 ∨ contentHeight = 0 then none
  else
    let padding : ℚ := 40
    let availableWidth := containerWidth - padding
    let availableHeight := containerHeight - padding
    let scaleX := availableWidth / contentWidth
    let scaleY := availableHeight / contentHeight
    let fitScale := min maxScale (max minScale (min scaleX scaleY))
    some { scale := fitScale
           translateX := (containerWidth - contentWidth * fitScale) / 2
           translateY := (containerHeight - contentHeight * fitScale) / 2
           isImmediate := false }

/-- The translate/velocity part of the coasting loop `startMomentum` of
`src/registry/mermaidcn/zoom-pan.tsx` (lines 90-112). -/
structure MomentumState where
  translateX : ℚ
  translateY : ℚ
  vx : ℚ
  vy : ℚ
deriving DecidableEq, Repr

/-- One `step` of `startMomentum` (lines 93-109): when both velocity
components are below 0.05 the loop returns without touching the velocity
ref (the `Bool` is whether another frame is scheduled); otherwise it adds
the velocity to the translate and applies friction 0.95. -/
def startMomentumStep (s : MomentumState) : MomentumState × Bool :=
  if |s.vx| < 0.05 ∧ |s.vy| < 0.05 then (s, false)
  else
    ({ translateX := s.translateX + s.vx
       translateY := s.translateY + s.vy
       vx := s.vx * 0.95
       vy := s.vy * 0.95 }, true)

/-- `startMomentumStep` iterated n times (keeping only the state). -/
def startMomentumRun : ℕ → MomentumState → MomentumState
  | 0, s => s
  | n + 1, s => (startMomentumStep (startMomentumRun n s)).1

end Registry

namespace RegistryR

noncomputable section

/-- The transform triple over `ℝ`, for the handlers that use `Math.exp` /
`Math.sqrt` (wheel and pinch of `src/registry/mermaidcn/zoom-pan.tsx`). -/
structure StateR where
  scale : ℝ
  translateX : ℝ
  translateY : ℝ

/-- Wheel-delta normalization of the registry `onWheel` (lines 315-317):
line mode (deltaMode 1) is scaled by 40, page mode (deltaMode 2) by 800. -/
def normalizeWheelDelta (deltaY : ℝ) (deltaMode : ℕ) : ℝ :=
  let d1 := if deltaMode = 1 then deltaY * 40 else deltaY
  if deltaMode = 2 then d1 * 800 else d1

/-- `scaleFactor = Math.exp (-delta * ZOOM_SENSITIVITY)` with the registry
sensitivity 0.002 (lines 319-320). -/
def wheelScaleFactor (deltaY : ℝ) (deltaMode : ℕ) : ℝ :=
  Real.exp (-(normalizeWheelDelta deltaY deltaMode) * 0.002)

/-- The registry `onWheel` state update (lines 311-338): clamp
`prev.scale * scaleFactor` and zoom towards the mouse position. -/
def onWheel (minScale maxScale deltaY : ℝ) (deltaMode : ℕ)
    (mouseX mouseY : ℝ) (prev : StateR) : StateR :=
  let scaleFactor := wheelScaleFactor deltaY deltaMode
  let newScale := min maxScale (max minScale (prev.scale * scaleFactor))
  let ratio := newScale / prev.scale
  { scale := newScale
    translateX := mouseX - (mouseX - prev.translateX) * ratio
    translateY := mouseY - (mouseY - prev.translateY) * ratio }

/-- `getTouchDistance` (lines 281-286): `Math.sqrt (dx*dx + dy*dy)` of the
two touch points. -/
def getTouchDistance (x1 y1 x2 y2 : ℝ) : ℝ :=
  Real.sqrt ((x1 - x2) * (x1 - x2) + (y1 - y2) * (y1 - y2))

/-- The pinch snapshot taken at touch start (`touchStartRef`): start
distance, start transform and start midpoint (client coordinates). -/
structure TouchSession where
  distance : ℝ
  scale : ℝ
  translateX : ℝ
  translateY : ℝ
  centerX : ℝ
  centerY : ℝ

/-- The pinch branch of the registry `onTouchMove` (lines 395-429), given
the new inter-finger distance and midpoint: clamp the snapshot scale times
the distance ratio, convert the start midpoint to content space with the
snapshot transform, and solve for the translation that puts that content
point under the new midpoint. -/
def onTouchMovePinch (minScale maxScale : ℝ) (session : TouchSession)
    (newDist newCenterX newCenterY rectLeft rectTop : ℝ) : StateR :=
  let scaleRatio := newDist / session.distance
  let newScale := min maxScale (max minScale (session.scale * scaleRatio))
  let oldCenterXRel := session.centerX - rectLeft
  let oldCenterYRel := session.centerY - rectTop
  let newCenterXRel := newCenterX - rectLeft
  let newCenterYRel := newCenterY - rectTop
  let contentX := (oldCenterXRel - session.translateX) / session.scale
  let contentY := (oldCenterYRel - session.translateY) / session.scale
  { scale := newScale
    translateX := newCenterXRel - contentX * newScale
    translateY := newCenterYRel - contentY * newScale }

/-- The pinch branch fed with raw touch points: the handler first computes
`getTouchDistance` and `getTouchCenter` of the current touches. -/
def onTouchMovePinchTouches (minScale maxScale : ℝ) (session : TouchSession)
    (x1 y1 x2 y2 rectLeft rectTop : ℝ) : StateR :=
  onTouchMovePinch minScale maxScale session
    (getTouchDistance x1 y1 x2 y2) ((x1 + x2) / 2) ((y1 + y2) / 2)
    rectLeft rectTop

end

end RegistryR

namespace Canvas

/-- `getCenterTransform` of the canvas variant of
`src/components/zoom-pan.tsx` (lines 1409-1422): fit scale is
`min (clientWidth / imageWidth) (clientHeight / imageHeight) * 0.9`
with NO clamp to `[minScale, maxScale]`; `centerView` assigns the result
directly to `targetRef`.  Returned as `(x, y, scale)`. -/
def getCenterTransform (canvasClientWidth canvasClientHeight
    imageWidth imageHeight : ℚ) : ℚ × ℚ × ℚ :=
  let scaleX := canvasClientWidth / imageWidth
  let scaleY := canvasClientHeight / imageHeight
  let scale := min scaleX scaleY * 0.9
  let x := (canvasClientWidth - imageWidth * scale) / 2
  let y := (canvasClientHeight - imageHeight * scale) / 2
  (x, y, scale)

noncomputable section

/-- Wheel-delta normalization of the canvas `onWheel` (lines 1475-1476):
only line mode (deltaMode 1) is scaled, by 40; a page-mode delta
(deltaMode 2) is used raw. -/
def normalizeWheelDelta (deltaY : ℝ) (deltaMode : ℕ) : ℝ :=
  if deltaMode = 1 then deltaY * 40 else deltaY

/-- The canvas wheel scale factor, sensitivity 0.0015 (lines 1477-1478). -/
def wheelScaleFactor (deltaY : ℝ) (deltaMode : ℕ) : ℝ :=
  Real.exp (-(normalizeWheelDelta deltaY deltaMode) * 0.0015)

end

end Canvas

namespace ComponentsV1

/-- One invocation of the `step` closure of `startAnimation` in the first
variant of `src/components/zoom-pan.tsx` (lines 115-169): momentum with
friction 0.92 above a 0.01 velocity threshold, lerp of current towards
target with pan factor 0.1 and zoom factor 0.06, then the stop check
(deltas of the momentum-updated state, velocity after friction).  The
`Bool` is whether the loop schedules another frame; on stop the loop
commits `current` to React state WITHOUT snapping it to `target`
(lines 162-164). -/
def step (s : PhysState) : PhysState × Bool :=
  let s1 :=
    if !s.isDragging && !s.isPinching then
      if 0.01 < |s.velocity.x| ∨ 0.01 < |s.velocity.y| then
        { s with
          target := { scale := s.target.scale
                      x := s.target.x + s.velocity.x
                      y := s.target.y + s.velocity.y }
          velocity := { x := s.velocity.x * 0.92, y := s.velocity.y * 0.92 } }
      else { s with velocity := { x := 0, y := 0 } }
    else s
  let dx := s1.target.x - s1.current.x
  let dy := s1.target.y - s1.current.y
  let ds := s1.target.scale - s1.current.scale
  let s2 := { s1 with
    current := { scale := s1.current.scale + ds * 0.06
                 x := s1.current.x + dx * 0.1
                 y := s1.current.y + dy * 0.1 } }
  if 0.1 < |dx| ∨ 0.1 < |dy| ∨ 0.001 < |ds| ∨
      0.1 < |s1.velocity.x| ∨ 0.1 < |s1.velocity.y| ∨
      s.isDragging = true ∨ s.isPinching = true then
    (s2, true)
  else
    (s2, false)

end ComponentsV1

namespace ComponentsV2

/-- The momentum block of the high-performance `step` (lines 694-710 of
`src/components/zoom-pan.tsx`), at the reference frame interval
(timeScale = 1, so `friction = 0.95 ^ 1 = 0.95`): while no gesture is
active and a velocity component exceeds 0.05, integrate the velocity into
the target and decay it; once both components are at most 0.05, set the
velocity exactly to zero. -/
def applyMomentum (s : PhysState) : PhysState :=
  if !s.isDragging && !s.isPinching then
    if 0.05 < |s.velocity.x| ∨ 0.05 < |s.velocity.y| then
      { s with
        target := { scale := s.target.scale
                    x := s.target.x + s.velocity.x
                    y := s.target.y + s.velocity.y }
        velocity := { x := s.velocity.x * 0.95, y := s.velocity.y * 0.95 } }
    else { s with velocity := { x := 0, y := 0 } }
  else s

/-- One invocation of the high-performance `step` (lines 677-746), at
timeScale = 1 (`panFactor = zoomFactor = 1 - (1 - 0.12) ^ 1 = 0.12`):
momentum, lerp of current towards target, then the stop check on the
pre-lerp deltas and the decayed velocity.  The `Bool` is whether another
frame is scheduled; on stop the loop snaps `current` to `target`
(lines 738-744) and commits it to React state. -/
def step (s : PhysState) : PhysState × Bool :=
  let s1 := applyMomentum s
  let dx := s1.target.x - s1.current.x
  let dy := s1.target.y - s1.current.y
  let ds := s1.target.scale - s1.current.scale
  let s2 := { s1 with
    current := { scale := s1.current.scale + ds * 0.12
                 x := s1.current.x + dx * 0.12
                 y := s1.current.y + dy * 0.12 } }
  if 0.1 < |dx| ∨ 0.1 < |dy| ∨ 0.0001 < |ds| ∨
      0.1 < |s1.velocity.x| ∨ 0.1 < |s1.velocity.y| ∨
      s.isDragging = true ∨ s.isPinching = true then
    (s2, true)
  else
    ({ s2 with current := s2.target }, false)

/-- `step` iterated n times (keeping only the state). -/
def run : ℕ → PhysState → PhysState
  | 0, s => s
  | n + 1, s => (step (run n s)).1

end ComponentsV2

namespace JS

noncomputable section

/-- An ECMAScript number for the special-value analysis of the wheel
handler: NaN, the two infinities, or a finite value (modelled as a real;
rounding of finite arithmetic is not modelled). -/
inductive Num
  | nan : Num
  | inf : Num
  | ninf : Num
  | fin : ℝ → Num

/-- Unary minus. -/
def neg : Num → Num
  | .nan => .nan
  | .inf => .ninf
  | .ninf => .inf
  | .fin x => .fin (-x)

/-- Multiplication: NaN is absorbing, an infinity times zero is NaN,
an infinity times a nonzero finite value keeps the sign rule. -/
def mul : Num → Num → Num
  | .nan, _ => .nan
  | _, .nan => .nan
  | .inf, .inf => .inf
  | .inf, .ninf => .ninf
  | .ninf, .inf => .ninf
  | .ninf, .ninf => .inf
  | .inf, .fin x => if x = 0 then .nan else if 0 < x then .inf else .ninf
  | .fin x, .inf => if x = 0 then .nan else if 0 < x then .inf else .ninf
  | .ninf, .fin x => if x = 0 then .nan else if 0 < x then .ninf else .inf
  | .fin x, .ninf => if x = 0 then .nan else if 0 < x then .ninf else .inf
  | .fin x, .fin y => .fin (x * y)

/-- `Math.exp`: exp NaN = NaN, exp Infinity = Infinity,
exp (-Infinity) = 0. -/
def exp : Num → Num
  | .nan => .nan
  | .inf => .inf
  | .ninf => .fin 0
  | .fin x => .fin (Real.exp x)

/-- `Math.max` of two arguments: NaN if either argument is NaN. -/
def max2 : Num → Num → Num
  | .nan, _ => .nan
  | _, .nan => .nan
  | .inf, _ => .inf
  | _, .inf => .inf
  | .ninf, b => b
  | a, .ninf => a
  | .fin x, .fin y => .fin (max x y)

/-- `Math.min` of two arguments: NaN if either argument is NaN. -/
def min2 : Num → Num → Num
  | .nan, _ => .nan
  | _, .nan => .nan
  | .ninf, _ => .ninf
  | _, .ninf => .ninf
  | .inf, b => b
  | a, .inf => a
  | .fin x, .fin y => .fin (min x y)

/-- The scale computation of the registry `onWheel` (lines 311-325) under
ECMAScript number semantics, for a pixel-mode event (deltaMode 0, so no
normalization branch fires): `Math.min (maxScale, Math.max (minScale,
prev.scale * Math.exp (-deltaY * 0.002)))`. -/
def onWheelNewScale (minScale maxScale : ℝ) (prevScale deltaY : Num) : Num :=
  let scaleFactor := exp (mul (neg deltaY) (.fin 0.002))
  min2 (.fin maxScale) (max2 (.fin minScale) (mul prevScale scaleFactor))

/-- Subtraction: NaN is absorbing, same-signed infinities cancel to NaN,
otherwise an infinite operand dominates. -/
def sub : Num → Num → Num
  | .nan, _ => .nan
  | _, .nan => .nan
  | .inf, .inf => .nan
  | .inf, .ninf => .inf
  | .ninf, .inf => .ninf
  | .ninf, .ninf => .nan
  | .inf, .fin _ => .inf
  | .ninf, .fin _ => .ninf
  | .fin _, .inf => .ninf
  | .fin _, .ninf => .inf
  | .fin x, .fin y => .fin (x - y)

/-- Division (zero is modelled as +0, the only zero the handlers feed it):
NaN is absorbing, an infinity divided by an infinity is NaN, a finite value
divided by an infinity is 0, an infinity divided by a finite value keeps
the sign rule (`+0` counts as positive), and `x / 0` is NaN for x = 0 and
a signed infinity otherwise. -/
def div : Num → Num → Num
  | .nan, _ => .nan
  | _, .nan => .nan
  | .inf, .inf => .nan
  | .inf, .ninf => .nan
  | .ninf, .inf => .nan
  | .ninf, .ninf => .nan
  | .inf, .fin y => if 0 ≤ y then .inf else .ninf
  | .ninf, .fin y => if 0 ≤ y then .ninf else .inf
  | .fin _, .inf => .fin 0
  | .fin _, .ninf => .fin 0
  | .fin x, .fin y =>
      if y = 0 then (if x = 0 then .nan else if 0 < x then .inf else .ninf)
      else .fin (x / y)

end

end JS

namespace Canvas

noncomputable section

/-- `getCenterTransform` of the canvas variant (lines 1409-1422) under
ECMAScript number semantics: the function has no zero-dimension guard (its
only early return is for missing canvas/image refs), so division by a zero
image dimension and `Infinity * 0` flow through the arithmetic unchanged;
`centerView` assigns the result directly to `targetRef`. -/
def getCenterTransformJS (canvasClientWidth canvasClientHeight
    imageWidth imageHeight : JS.Num) : JS.Num × JS.Num × JS.Num :=
  let scaleX := JS.div canvasClientWidth imageWidth
  let scaleY := JS.div canvasClientHeight imageHeight
  let scale := JS.mul (JS.min2 scaleX scaleY) (.fin 0.9)
  let x := JS.div (JS.sub canvasClientWidth (JS.mul imageWidth scale)) (.fin 2)
  let y := JS.div (JS.sub canvasClientHeight (JS.mul imageHeight scale)) (.fin 2)
  (x, y, scale)

end

end Canvas

namespace Canvas

/-- A 0x0 image (no zero guard in `getCenterTransform`): both fit ratios
are Infinity, scale = Infinity * 0.9 = Infinity, and each offset is
`(cw - 0 * Infinity) / 2 = NaN`. -/
theorem getCenterTransformJS_zero_image :
    getCenterTransformJS (.fin 800) (.fin 600) (.fin 0) (.fin 0) =
      (JS.Num.nan, JS.Num.nan, JS.Num.inf) := by
  have h1 : JS.div (JS.Num.fin 800) (JS.Num.fin 0) = JS.Num.inf := by
    rw [JS.div]
    norm_num
  have h2 : JS.div (JS.Num.fin 600) (JS.Num.fin 0) = JS.Num.inf := by
    rw [JS.div]
    norm_num
  have h3 : JS.mul JS.Num.inf (JS.Num.fin 0.9) = JS.Num.inf := by
    rw [JS.mul]
    norm_num
  have h4 : JS.mul (JS.Num.fin 0) JS.Num.inf = JS.Num.nan := by
    rw [JS.mul]
    norm_num
  simp only [getCenterTransformJS, h1, h2]
  rw [show JS.min2 JS.Num.inf JS.Num.inf = JS.Num.inf from rfl, h3, h4]
  rfl

/-- A 0x0 canvas with a 10x10 image: both fit ratios are 0, so
`getCenterTransform` yields scale 0 (below any positive minScale, with no
clamp applied) and offsets 0. -/
theorem getCenterTransformJS_zero_canvas :
    getCenterTransformJS (.fin 0) (.fin 0) (.fin 10) (.fin 10) =
      (JS.Num.fin 0, JS.Num.fin 0, JS.Num.fin 0) := by
  have h1 : JS.div (JS.Num.fin 0) (JS.Num.fin 10) = JS.Num.fin 0 := by
    rw [JS.div]
    norm_num
  have h2 : JS.min2 (JS.Num.fin 0) (JS.Num.fin 0) = JS.Num.fin 0 := by
    rw [JS.min2]
    norm_num
  have h3 : JS.mul (JS.Num.fin 0) (JS.Num.fin 0.9) = JS.Num.fin 0 := by
    rw [JS.mul]
    norm_num
  have h4 : JS.mul (JS.Num.fin 10) (JS.Num.fin 0) = JS.Num.fin 0 := by
    rw [JS.mul]
    norm_num
  have h5 : JS.sub (JS.Num.fin 0) (JS.Num.fin 0) = JS.Num.fin 0 := by
    rw [JS.sub]
    norm_num
  have h6 : JS.div (JS.Num.fin 0) (JS.Num.fin 2) = JS.Num.fin 0 := by
    rw [JS.div]
    norm_num
  simp only [getCenterTransformJS, h1, h2, h3, h4, h5, h6]

end Canvas

/-! ## Helper lemmas -/

/-- Clamping `x` as the source writes it, `min maxS (max minS x)`, lands in
`[minS, maxS]` whenever the bounds are ordered. -/
theorem clamp_mem {α : Type*} [LinearOrder α] {lo hi : α} (h : lo ≤ hi) (x : α) :
    lo ≤ min hi (max lo x) ∧ min hi (max lo x) ≤ hi :=
  ⟨le_min h (le_max_left lo x), min_le_left hi (max lo x)⟩

/-- With a positive lower bound the clamped value is positive. -/
theorem clamp_pos {α : Type*} [LinearOrderedField α] {lo hi : α} (h0 : 0 < lo)
    (h : lo ≤ hi) (x : α) : 0 < min hi (max lo x) :=
  lt_min (lt_of_lt_of_le h0 h) (lt_of_lt_of_le h0 (le_max_left lo x))

/-- The anchoring identity in ratio form, as the wheel and button handlers
write it: `newT = A - (A - t) * (ns / s)` keeps the content point under the
anchor `A` fixed. -/
theorem anchor_ratio {K : Type*} [Field K] (A t s ns : K) (hs : s ≠ 0)
    (hns : ns ≠ 0) : (A - (A - (A - t) * (ns / s))) / ns = (A - t) / s := by
  field_simp
  ring

/-- The anchoring identity in content-point form, as the pinch handler
writes it: `newT = A - ((A - t) / s) * ns`. -/
theorem anchor_content {K : Type*} [Field K] (A t s ns : K) (hs : s ≠ 0)
    (hns : ns ≠ 0) : (A - (A - (A - t) / s * ns)) / ns = (A - t) / s := by
  field_simp
  ring

namespace ComponentsV2

/-- The stop branch of `step` never changes target, so the target after a
tick is the target after the momentum block. -/
theorem step_fst_target (s : PhysState) :
    (step s).1.target = (applyMomentum s).target := by
  simp only [step]
  split <;> rfl

/-- The velocity after a tick is the velocity after the momentum block. -/
theorem step_fst_velocity (s : PhysState) :
    (step s).1.velocity = (applyMomentum s).velocity := by
  simp only [step]
  split <;> rfl

/-- A tick does not change the drag flag. -/
theorem step_fst_isDragging (s : PhysState) :
    (step s).1.isDragging = (applyMomentum s).isDragging := by
  simp only [step]
  split <;> rfl

/-- A tick does not change the pinch flag. -/
theorem step_fst_isPinching (s : PhysState) :
    (step s).1.isPinching = (applyMomentum s).isPinching := by
  simp only [step]
  split <;> rfl

/-- The momentum block with no gesture and a velocity component above the
threshold: integrate and decay. -/
theorem applyMomentum_active (s : PhysState) (hd : s.isDragging = false)
    (hp : s.isPinching = false)
    (hv : 0.05 < |s.velocity.x| ∨ 0.05 < |s.velocity.y|) :
    applyMomentum s = { s with
      target := { scale := s.target.scale, x := s.target.x + s.velocity.x
                  y := s.target.y + s.velocity.y }
      velocity := { x := s.velocity.x * 0.95, y := s.velocity.y * 0.95 } } := by
  rw [applyMomentum, hd, hp]
  simp only [Bool.not_false, Bool.and_self, if_true]
  rw [if_pos hv]

/-- The momentum block with no gesture and both velocity components at or
below the threshold: zero the velocity, leave the target alone. -/
theorem applyMomentum_inactive (s : PhysState) (hd : s.isDragging = false)
    (hp : s.isPinching = false)
    (hv : ¬ (0.05 < |s.velocity.x| ∨ 0.05 < |s.velocity.y|)) :
    applyMomentum s = { s with velocity := { x := 0, y := 0 } } := by
  rw [applyMomentum, hd, hp]
  simp only [Bool.not_false, Bool.and_self, if_true]
  rw [if_neg hv]

/-- Once the velocity is zero and no gesture is active, a tick leaves the
target, the velocity and the flags unchanged. -/
theorem step_frozen (s : PhysState) (hd : s.isDragging = false)
    (hp : s.isPinching = false) (hvx : s.velocity.x = 0)
    (hvy : s.velocity.y = 0) :
    (step s).1.target = s.target ∧ (step s).1.velocity = ⟨0, 0⟩ ∧
    (step s).1.isDragging = false ∧ (step s).1.isPinching = false := by
  have hv : ¬ (0.05 < |s.velocity.x| ∨ 0.05 < |s.velocity.y|) := by
    push_neg
    rw [hvx, hvy, abs_zero]
    norm_num
  have hact := applyMomentum_inactive s hd hp hv
  refine ⟨?_, ?_, ?_, ?_⟩
  · rw [step_fst_target, hact]
  · rw [step_fst_velocity, hact]
  · rw [step_fst_isDragging, hact]
    exact hd
  · rw [step_fst_isPinching, hact]
    exact hp

/-- The state just after a drag release with recorded velocity (10, 0)
from the default transform: target = current = identity, vx = 10. -/
def coastScenario : PhysState := ⟨⟨1, 0, 0⟩, ⟨1, 0, 0⟩, ⟨10, 0⟩, false, false⟩

/-- Closed form of the first 104 ticks of `coastScenario`: the loop is in
its momentum phase, `velocity.x = 10 * 0.95 ^ n` and
`target.x = 200 * (1 - 0.95 ^ n)`. -/
theorem run_coast_closed : ∀ n ≤ 104,
    (run n coastScenario).target.x = 200 * (1 - (19/20)^n) ∧
    (run n coastScenario).velocity.x = 10 * (19/20)^n ∧
    (run n coastScenario).velocity.y = 0 ∧
    (run n coastScenario).isDragging = false ∧
    (run n coastScenario).isPinching = false := by
  intro n hn
  induction n with
  | zero => norm_num [run, coastScenario]
  | succ n ih =>
    obtain ⟨htx, hvx, hvy, hd, hp⟩ := ih (by omega)
    have hn103 : n ≤ 103 := by omega
    have hq : (1/200 : ℚ) < (19/20)^n :=
      lt_of_lt_of_le (by norm_num)
        (pow_le_pow_of_le_one (by norm_num) (by norm_num) hn103)
    have hv : 0.05 < |(run n coastScenario).velocity.x| ∨
        0.05 < |(run n coastScenario).velocity.y| := by
      left
      rw [hvx, abs_of_pos (by positivity)]
      nlinarith
    have hact := applyMomentum_active (run n coastScenario) hd hp hv
    refine ⟨?_, ?_, ?_, ?_, ?_⟩
    · rw [run, step_fst_target, hact]
      show (run n coastScenario).target.x + (run n coastScenario).velocity.x = _
      rw [htx, hvx]
      ring
    · rw [run, step_fst_velocity, hact]
      show (run n coastScenario).velocity.x * 0.95 = _
      rw [hvx]
      ring
    · rw [run, step_fst_velocity, hact]
      show (run n coastScenario).velocity.y * 0.95 = _
      rw [hvy]
      ring
    · rw [run, step_fst_isDragging, hact]
      exact hd
    · rw [run, step_fst_isPinching, hact]
      exact hp

/-- At tick 105 the velocity of `coastScenario` is set exactly to zero and
the target x freezes at `200 * (1 - 0.95 ^ 104)`. -/
theorem run_coast_105 :
    (run 105 coastScenario).target.x = 200 * (1 - (19/20:ℚ)^104) ∧
    (run 105 coastScenario).velocity.x = 0 ∧
    (run 105 coastScenario).velocity.y = 0 ∧
    (run 105 coastScenario).isDragging = false ∧
    (run 105 coastScenario).isPinching = false := by
  obtain ⟨htx, hvx, hvy, hd, hp⟩ := run_coast_closed 104 (by norm_num)
  have hv : ¬ (0.05 < |(run 104 coastScenario).velocity.x| ∨
      0.05 < |(run 104 coastScenario).velocity.y|) := by
    push_neg
    constructor
    · rw [hvx, abs_of_pos (by positivity)]
      norm_num
    · rw [hvy, abs_zero]
      norm_num
  have hact := applyMomentum_inactive (run 104 coastScenario) hd hp hv
  have e1 : (run 105 coastScenario) = (step (run 104 coastScenario)).1 := rfl
  refine ⟨?_, ?_, ?_, ?_, ?_⟩
  · rw [e1, step_fst_target, hact, htx]
  · rw [e1, step_fst_velocity, hact]
  · rw [e1, step_fst_velocity, hact]
  · rw [e1, step_fst_isDragging, hact]
    exact hd
  · rw [e1, step_fst_isPinching, hact]
    exact hp

/-- From tick 105 on, the target x of `coastScenario` never changes and the
velocity stays exactly zero. -/
theorem run_coast_after : ∀ m,
    (run (105 + m) coastScenario).target.x = (run 105 coastScenario).target.x ∧
    (run (105 + m) coastScenario).velocity.x = 0 ∧
    (run (105 + m) coastScenario).velocity.y = 0 ∧
    (run (105 + m) coastScenario).isDragging = false ∧
    (run (105 + m) coastScenario).isPinching = false := by
  intro m
  induction m with
  | zero =>
    exact ⟨rfl, run_coast_105.2.1, run_coast_105.2.2.1,
      run_coast_105.2.2.2.1, run_coast_105.2.2.2.2⟩
  | succ m ih =>
    obtain ⟨htx, hvx, hvy, hd, hp⟩ := ih
    have e1 : (run (105 + (m + 1)) coastScenario) =
        (step (run (105 + m) coastScenario)).1 := rfl
    obtain ⟨ft, fv, fd, fp⟩ := step_frozen (run (105 + m) coastScenario) hd hp hvx hvy
    refine ⟨?_, ?_, ?_, ?_, ?_⟩
    · rw [e1, ft]
      exact htx
    · rw [e1, fv]
    · rw [e1, fv]
    · rw [e1]
      exact fd
    · rw [e1]
      exact fp

end ComponentsV2

namespace ComponentsV2

/-- The state right after a `zoomIn()` press from the settled default
state in an 800x600 container: the button wrote target (scale 1.1,
x = 400 - 400 * 1.1 = -40, y = 300 - 300 * 1.1 = -30), current is still
the identity, no velocity, no gesture. -/
def zoomInScenario : PhysState :=
  ⟨⟨1.1, -40, -30⟩, ⟨1, 0, 0⟩, ⟨0, 0⟩, false, false⟩

/-- With zero velocity and no gesture the momentum block is the
identity. -/
theorem applyMomentum_still (t c : Transform) :
    applyMomentum ⟨t, c, ⟨0, 0⟩, false, false⟩ = ⟨t, c, ⟨0, 0⟩, false, false⟩ := by
  rw [applyMomentum]
  norm_num

/-- Closed form of the first 55 ticks after the button press: the target
stays put and every delta decays geometrically with ratio
1 - 0.12 = 22/25 per tick. -/
theorem run_zoomIn_closed : ∀ n ≤ 55, run n zoomInScenario =
    ⟨⟨1.1, -40, -30⟩,
     ⟨1.1 - 0.1 * (22/25)^n, -40 + 40 * (22/25)^n, -30 + 30 * (22/25)^n⟩,
     ⟨0, 0⟩, false, false⟩ := by
  intro n hn
  induction n with
  | zero => norm_num [run, zoomInScenario]
  | succ n ih =>
    have hn54 : n ≤ 54 := by omega
    have hq : (1/1000 : ℚ) < (22/25)^n :=
      lt_of_lt_of_le (by norm_num)
        (pow_le_pow_of_le_one (by norm_num) (by norm_num) hn54)
    rw [run, ih (by omega), step, applyMomentum_still]
    have hcond : (0.1:ℚ) < |(-40:ℚ) - (-40 + 40 * (22/25)^n)| ∨
        (0.1:ℚ) < |(-30:ℚ) - (-30 + 30 * (22/25)^n)| ∨
        (0.0001:ℚ) < |(1.1:ℚ) - (1.1 - 0.1 * (22/25)^n)| ∨
        (0.1:ℚ) < |(0:ℚ)| ∨ (0.1:ℚ) < |(0:ℚ)| ∨ false = true ∨ false = true := by
      right; right; left
      have e3 : (1.1:ℚ) - (1.1 - 0.1 * (22/25)^n) = 0.1 * (22/25)^n := by ring
      rw [e3, abs_of_pos (by positivity)]
      nlinarith
    rw [if_pos hcond]
    simp only [PhysState.mk.injEq, Transform.mk.injEq, Vec2.mk.injEq]
    norm_num
    refine ⟨by ring, by ring, by ring⟩

/-- At tick 56 the loop halts: every pre-lerp delta of tick 55 is within
tolerance, so `step` does not reschedule and snaps current to target. -/
theorem run_zoomIn_stop :
    (step (run 55 zoomInScenario)).2 = false ∧
    (run 56 zoomInScenario).current = (run 56 zoomInScenario).target := by
  have h55 := run_zoomIn_closed 55 (by norm_num)
  have hcond : ¬ ((0.1:ℚ) < |(-40:ℚ) - (-40 + 40 * (22/25)^55)| ∨
      (0.1:ℚ) < |(-30:ℚ) - (-30 + 30 * (22/25)^55)| ∨
      (0.0001:ℚ) < |(1.1:ℚ) - (1.1 - 0.1 * (22/25)^55)| ∨
      (0.1:ℚ) < |(0:ℚ)| ∨ (0.1:ℚ) < |(0:ℚ)| ∨ false = true ∨ false = true) := by
    have e1 : (-40:ℚ) - (-40 + 40 * (22/25)^55) = -(40 * (22/25)^55) := by ring
    have e2 : (-30:ℚ) - (-30 + 30 * (22/25)^55) = -(30 * (22/25)^55) := by ring
    have e3 : (1.1:ℚ) - (1.1 - 0.1 * (22/25)^55) = 0.1 * (22/25)^55 := by ring
    have hk : (22/25:ℚ)^55 ≤ 1/1000 := by norm_num
    push_neg
    rw [e1, e2, e3, abs_neg, abs_neg, abs_of_pos (by positivity),
      abs_of_pos (by positivity), abs_of_pos (by positivity), abs_zero]
    refine ⟨by nlinarith, by nlinarith, by nlinarith, by norm_num, by norm_num,
      by simp, by simp⟩
  constructor
  · rw [h55, step, applyMomentum_still]
    rw [if_neg hcond]
  · have e1 : run 56 zoomInScenario = (step (run 55 zoomInScenario)).1 := rfl
    rw [e1, h55, step, applyMomentum_still, if_neg hcond]

end ComponentsV2

namespace Registry

/-- The momentum state right after a drag release with recorded velocity
(10, 0). -/
def coastStart : MomentumState := ⟨0, 0, 10, 0⟩

/-- Closed form of the registry coasting loop from `coastStart`: for the
first 104 frames the velocity is above the 0.05 cutoff, so
`vx = 10 * 0.95 ^ n` and `translateX = 200 * (1 - 0.95 ^ n)`. -/
theorem startMomentumRun_closed : ∀ n ≤ 104, startMomentumRun n coastStart =
    ⟨200 * (1 - (19/20)^n), 0, 10 * (19/20)^n, 0⟩ := by
  intro n hn
  induction n with
  | zero => norm_num [startMomentumRun, coastStart]
  | succ n ih =>
    have hn103 : n ≤ 103 := by omega
    have hq : (1/200 : ℚ) ≤ (19/20)^n :=
      le_trans (by norm_num)
        (pow_le_pow_of_le_one (by norm_num) (by norm_num) hn103)
    rw [startMomentumRun, ih (by omega)]
    have hcond : ¬ (|10 * (19/20:ℚ)^n| < 0.05 ∧ |(0:ℚ)| < 0.05) := by
      rw [abs_of_pos (by positivity), abs_zero]
      push_neg
      intro h
      exfalso
      nlinarith
    rw [startMomentumStep, if_neg hcond]
    simp only [MomentumState.mk.injEq]
    refine ⟨by ring, by norm_num, by ring, by norm_num⟩

end Registry

/-! ## Claim theorems -/

/-- C1 (amended): zoom sequences keep the scale in `[minScale, maxScale]`,
and the button-zoom, wheel-zoom, pinch-zoom and DOM-variant fit-to-view
write sites all clamp the computed scale to `[minScale, maxScale]`.  (The
canvas-variant fit-to-view does not clamp — see the counterexample.) -/
theorem C1_scale_clamped_at_write_sites :
    (∀ (minScale maxScale delta px py : ℚ) (prev : Registry.ZoomPanState),
      minScale ≤ maxScale →
      minScale ≤ (Registry.applyZoomToPoint minScale maxScale delta px py prev).scale ∧
      (Registry.applyZoomToPoint minScale maxScale delta px py prev).scale ≤ maxScale) ∧
    (∀ (minScale maxScale px py : ℚ) (deltas : List ℚ) (s : Registry.ZoomPanState),
      minScale ≤ maxScale → minScale ≤ s.scale → s.scale ≤ maxScale →
      minScale ≤ (Registry.zoomSeq minScale maxScale px py deltas s).scale ∧
      (Registry.zoomSeq minScale maxScale px py deltas s).scale ≤ maxScale) ∧
    (∀ (minScale maxScale deltaY : ℝ) (deltaMode : ℕ) (mouseX mouseY : ℝ)
      (prev : RegistryR.StateR), minScale ≤ maxScale →
      minScale ≤ (RegistryR.onWheel minScale maxScale deltaY deltaMode mouseX mouseY prev).scale ∧
      (RegistryR.onWheel minScale maxScale deltaY deltaMode mouseX mouseY prev).scale ≤ maxScale) ∧
    (∀ (minScale maxScale : ℝ) (session : RegistryR.TouchSession)
      (newDist ncx ncy rl rt : ℝ), minScale ≤ maxScale →
      minScale ≤ (RegistryR.onTouchMovePinch minScale maxScale session newDist ncx ncy rl rt).scale ∧
      (RegistryR.onTouchMovePinch minScale maxScale session newDist ncx ncy rl rt).scale ≤ maxScale) ∧
    (∀ (minScale maxScale cw ch w h : ℚ) (s' : Registry.ZoomPanState),
      minScale ≤ maxScale →
      Registry.centerView minScale maxScale cw ch w h = some s' →
      minScale ≤ s'.scale ∧ s'.scale ≤ maxScale) := by
  refine ⟨?_, ?_, ?_, ?_, ?_⟩
  · intro minScale maxScale delta px py prev h
    exact clamp_mem h _
  · intro minScale maxScale px py deltas
    induction deltas with
    | nil => intro s h h1 h2; exact ⟨h1, h2⟩
    | cons d rest ih =>
      intro s h h1 h2
      have hstep := clamp_mem h (s.scale + d)
      exact ih (Registry.applyZoomToPoint minScale maxScale d px py s) h hstep.1 hstep.2
  · intro minScale maxScale deltaY deltaMode mouseX mouseY prev h
    exact clamp_mem h _
  · intro minScale maxScale session newDist ncx ncy rl rt h
    exact clamp_mem h _
  · intro minScale maxScale cw ch w hc s' h hcv
    rw [Registry.centerView] at hcv
    split at hcv
    · exact absurd hcv (by simp)
    · rw [Option.some.injEq] at hcv
      rw [← hcv]
      exact clamp_mem h _

/-- C1 witness: a concrete instance of the button-zoom clamp with the
default bounds, delta 100 from scale 1 (the result is clamped to 5). -/
theorem C1_scale_clamped_witness :
    (0.1:ℚ) ≤ (Registry.applyZoomToPoint 0.1 5 100 0 0 ⟨1, 0, 0, false⟩).scale ∧
    (Registry.applyZoomToPoint 0.1 5 100 0 0 ⟨1, 0, 0, false⟩).scale ≤ 5 :=
  C1_scale_clamped_at_write_sites.1 0.1 5 100 0 0 ⟨1, 0, 0, false⟩ (by norm_num)

/-- C1 counterexample: the canvas-variant fit-to-view (`getCenterTransform`,
`src/components/zoom-pan.tsx` lines 1409-1422, written to `targetRef` by its
`centerView`) does not clamp: an 800x600 canvas with a 10x10 image yields
scale `min (800/10) (600/10) * 0.9 = 54`, far above the default
maxScale 5. -/
theorem C1_canvas_fit_to_view_unclamped :
    (Canvas.getCenterTransform 800 600 10 10).2.2 = 54 ∧
    ¬ ((Canvas.getCenterTransform 800 600 10 10).2.2 ≤ 5) := by
  norm_num [Canvas.getCenterTransform, min_def]

/-- C3 (amended): the registry fit-to-view computes
`fitScale = clamp (min ((cw - 40) / w) ((ch - 40) / h), minScale, maxScale)`
and centers the scaled content, `offset = (containerSize - contentSize *
fitScale) / 2` per axis; for an 800x600 container and 1000x500 content with
the default bounds this gives fitScale = 0.76, offsetX = 20 (not 52) and
offsetY = 110. -/
theorem C3_fit_to_view_formula :
    (∀ (minScale maxScale cw ch w h : ℚ), ¬ w = 0 → ¬ h = 0 →
      Registry.centerView minScale maxScale cw ch w h =
        some { scale := min maxScale (max minScale (min ((cw - 40) / w) ((ch - 40) / h)))
               translateX := (cw - w * min maxScale (max minScale (min ((cw - 40) / w) ((ch - 40) / h)))) / 2
               translateY := (ch - h * min maxScale (max minScale (min ((cw - 40) / w) ((ch - 40) / h)))) / 2
               isImmediate := false }) ∧
    Registry.centerView 0.1 5 800 600 1000 500 = some ⟨0.76, 20, 110, false⟩ := by
  constructor
  · intro minScale maxScale cw ch w h hw hh
    rw [Registry.centerView, if_neg (not_or.mpr ⟨hw, hh⟩)]
  · norm_num [Registry.centerView, min_def, max_def]

/-- C3 witness: the general formula instantiated at the scenario's
dimensions (content nonzero discharged concretely). -/
theorem C3_fit_to_view_witness :
    Registry.centerView 0.1 5 800 600 1000 500 =
      some { scale := min 5 (max 0.1 (min ((800 - 40) / 1000) ((600 - 40) / 500)))
             translateX := (800 - 1000 * min 5 (max 0.1 (min ((800 - 40) / 1000) ((600 - 40) / 500)))) / 2
             translateY := (600 - 500 * min 5 (max 0.1 (min ((800 - 40) / 1000) ((600 - 40) / 500)))) / 2
             isImmediate := false } :=
  C3_fit_to_view_formula.1 0.1 5 800 600 1000 500 (by norm_num) (by norm_num)

/-- C3 counterexample: the claimed offsetX = 52 is wrong on the code; the
registry `centerView` at container 800x600, content 1000x500 yields
offsetX = (800 - 1000 * 0.76) / 2 = 20. -/
theorem C3_fit_offsetX_not_52 :
    Registry.centerView 0.1 5 800 600 1000 500 ≠ some ⟨0.76, 52, 110, false⟩ ∧
    Registry.centerView 0.1 5 800 600 1000 500 = some ⟨0.76, 20, 110, false⟩ := by
  constructor
  · norm_num [Registry.centerView, min_def, max_def]
  · norm_num [Registry.centerView, min_def, max_def]

/-- C9 (amended): the registry fit-to-view no-ops exactly when the measured
content width or height is zero, and when it proceeds (including with a
zero container dimension, which it does NOT detect) it writes a finite,
clamped, positive transform.  The canvas-variant fit-to-view
(`getCenterTransform`) has no zero-dimension guard at all: a 0x0 image
yields translate (NaN, NaN) and scale Infinity, and a 0x0 canvas with a
10x10 image yields scale 0 — both written to the target, neither a
no-op. -/
theorem C9_centerView_guard :
    (∀ (minScale maxScale cw ch w h : ℚ),
      Registry.centerView minScale maxScale cw ch w h = none ↔ w = 0 ∨ h = 0) ∧
    (∀ (minScale maxScale cw ch w h : ℚ) (s' : Registry.ZoomPanState),
      0 < minScale → minScale ≤ maxScale →
      Registry.centerView minScale maxScale cw ch w h = some s' →
      0 < s'.scale ∧ minScale ≤ s'.scale ∧ s'.scale ≤ maxScale) ∧
    Canvas.getCenterTransformJS (.fin 800) (.fin 600) (.fin 0) (.fin 0) =
      (JS.Num.nan, JS.Num.nan, JS.Num.inf) ∧
    Canvas.getCenterTransformJS (.fin 0) (.fin 0) (.fin 10) (.fin 10) =
      (JS.Num.fin 0, JS.Num.fin 0, JS.Num.fin 0) := by
  refine ⟨?_, ?_, Canvas.getCenterTransformJS_zero_image,
    Canvas.getCenterTransformJS_zero_canvas⟩
  · intro minScale maxScale cw ch w h
    rw [Registry.centerView]
    split
    · next hcond => simp [hcond]
    · next hcond => simp [hcond]
  · intro minScale maxScale cw ch w h s' h0 hmm hcv
    rw [Registry.centerView] at hcv
    split at hcv
    · exact absurd hcv (by simp)
    · rw [Option.some.injEq] at hcv
      rw [← hcv]
      exact ⟨clamp_pos h0 hmm _, clamp_mem hmm _⟩

/-- C9 witness: the bound part applied at a zero-sized container with
100x100 content — `centerView` writes scale 0.1, it does not no-op. -/
theorem C9_centerView_witness :
    (0:ℚ) < (Registry.ZoomPanState.mk 0.1 (-5) (-5) false).scale ∧
    (0.1:ℚ) ≤ (Registry.ZoomPanState.mk 0.1 (-5) (-5) false).scale ∧
    (Registry.ZoomPanState.mk 0.1 (-5) (-5) false).scale ≤ 5 :=
  C9_centerView_guard.2.1 0.1 5 0 0 100 100 ⟨0.1, -5, -5, false⟩ (by norm_num)
    (by norm_num) (by norm_num [Registry.centerView, min_def, max_def])

/-- C9 counterexample: with containerWidth = containerHeight = 0 and
content 100x100, the registry `centerView` is not a no-op — it writes the
transform (scale 0.1, translate (-5, -5)) instead of returning early —
and the canvas `getCenterTransform` at a 0x0 image produces translate
(NaN, NaN) and scale Infinity instead of no-opping. -/
theorem C9_zero_container_not_noop :
    Registry.centerView 0.1 5 0 0 100 100 = some ⟨0.1, -5, -5, false⟩ ∧
    Registry.centerView 0.1 5 0 0 100 100 ≠ none ∧
    Canvas.getCenterTransformJS (.fin 800) (.fin 600) (.fin 0) (.fin 0) =
      (JS.Num.nan, JS.Num.nan, JS.Num.inf) := by
  have h1 : Registry.centerView 0.1 5 0 0 100 100 = some ⟨0.1, -5, -5, false⟩ := by
    norm_num [Registry.centerView, min_def, max_def]
  refine ⟨h1, ?_, Canvas.getCenterTransformJS_zero_image⟩
  rw [h1]
  simp

/-- C2 (confirmed): anchored zoom keeps the content-space point under the
anchor fixed — `(anchor - newOffset) / newScale = (anchor - oldOffset) /
oldScale` — for wheel zoom at the mouse position, pinch zoom at a
stationary gesture midpoint, and button zoom at the container center, in
exact rational/real arithmetic (even when the clamp is active). -/
theorem C2_anchoring_invariant :
    (∀ (minScale maxScale deltaY : ℝ) (deltaMode : ℕ) (mouseX mouseY : ℝ)
      (prev : RegistryR.StateR), 0 < minScale → minScale ≤ maxScale →
      0 < prev.scale →
      (mouseX - (RegistryR.onWheel minScale maxScale deltaY deltaMode mouseX mouseY prev).translateX) /
          (RegistryR.onWheel minScale maxScale deltaY deltaMode mouseX mouseY prev).scale =
        (mouseX - prev.translateX) / prev.scale ∧
      (mouseY - (RegistryR.onWheel minScale maxScale deltaY deltaMode mouseX mouseY prev).translateY) /
          (RegistryR.onWheel minScale maxScale deltaY deltaMode mouseX mouseY prev).scale =
        (mouseY - prev.translateY) / prev.scale) ∧
    (∀ (minScale maxScale : ℝ) (session : RegistryR.TouchSession)
      (newDist rectLeft rectTop : ℝ), 0 < minScale → minScale ≤ maxScale →
      0 < session.scale →
      ((session.centerX - rectLeft) -
          (RegistryR.onTouchMovePinch minScale maxScale session newDist session.centerX session.centerY rectLeft rectTop).translateX) /
          (RegistryR.onTouchMovePinch minScale maxScale session newDist session.centerX session.centerY rectLeft rectTop).scale =
        ((session.centerX - rectLeft) - session.translateX) / session.scale ∧
      ((session.centerY - rectTop) -
          (RegistryR.onTouchMovePinch minScale maxScale session newDist session.centerX session.centerY rectLeft rectTop).translateY) /
          (RegistryR.onTouchMovePinch minScale maxScale session newDist session.centerX session.centerY rectLeft rectTop).scale =
        ((session.centerY - rectTop) - session.translateY) / session.scale) ∧
    (∀ (minScale maxScale delta px py : ℚ) (prev : Registry.ZoomPanState),
      0 < minScale → minScale ≤ maxScale → 0 < prev.scale →
      (px - (Registry.applyZoomToPoint minScale maxScale delta px py prev).translateX) /
          (Registry.applyZoomToPoint minScale maxScale delta px py prev).scale =
        (px - prev.translateX) / prev.scale ∧
      (py - (Registry.applyZoomToPoint minScale maxScale delta px py prev).translateY) /
          (Registry.applyZoomToPoint minScale maxScale delta px py prev).scale =
        (py - prev.translateY) / prev.scale) := by
  refine ⟨?_, ?_, ?_⟩
  · intro minScale maxScale deltaY deltaMode mouseX mouseY prev h0 hmm hs
    have hns : (0:ℝ) < min maxScale (max minScale (prev.scale * RegistryR.wheelScaleFactor deltaY deltaMode)) :=
      clamp_pos h0 hmm _
    exact ⟨anchor_ratio mouseX prev.translateX prev.scale _ hs.ne' hns.ne',
      anchor_ratio mouseY prev.translateY prev.scale _ hs.ne' hns.ne'⟩
  · intro minScale maxScale session newDist rectLeft rectTop h0 hmm hs
    have hns : (0:ℝ) < min maxScale (max minScale (session.scale * (newDist / session.distance))) :=
      clamp_pos h0 hmm _
    exact ⟨anchor_content (session.centerX - rectLeft) session.translateX session.scale _ hs.ne' hns.ne',
      anchor_content (session.centerY - rectTop) session.translateY session.scale _ hs.ne' hns.ne'⟩
  · intro minScale maxScale delta px py prev h0 hmm hs
    have hns : (0:ℚ) < min maxScale (max minScale (prev.scale + delta)) :=
      clamp_pos h0 hmm _
    exact ⟨anchor_ratio px prev.translateX prev.scale _ hs.ne' hns.ne',
      anchor_ratio py prev.translateY prev.scale _ hs.ne' hns.ne'⟩

/-- C2 witness: the button-zoom anchoring instance at the default bounds,
zooming by 0.1 from scale 1 with translate (7, 9) around the container
center (400, 300). -/
theorem C2_anchoring_witness :
    ((400:ℚ) - (Registry.applyZoomToPoint 0.1 5 0.1 400 300 ⟨1, 7, 9, false⟩).translateX) /
        (Registry.applyZoomToPoint 0.1 5 0.1 400 300 ⟨1, 7, 9, false⟩).scale =
      ((400:ℚ) - (Registry.ZoomPanState.mk 1 7 9 false).translateX) / (Registry.ZoomPanState.mk 1 7 9 false).scale ∧
    ((300:ℚ) - (Registry.applyZoomToPoint 0.1 5 0.1 400 300 ⟨1, 7, 9, false⟩).translateY) /
        (Registry.applyZoomToPoint 0.1 5 0.1 400 300 ⟨1, 7, 9, false⟩).scale =
      ((300:ℚ) - (Registry.ZoomPanState.mk 1 7 9 false).translateY) / (Registry.ZoomPanState.mk 1 7 9 false).scale :=
  C2_anchoring_invariant.2.2 0.1 5 0.1 400 300 ⟨1, 7, 9, false⟩ (by norm_num)
    (by norm_num) (by norm_num)

/-- C7 (confirmed): a pinch move with a valid snapshot (start distance
positive) sets the scale to `clamp (startScale * newDistance /
startDistance, minScale, maxScale)`, computed from the gesture-start
snapshot; a pinch whose distance grows from 100 to 200 at startScale 1
with bounds [0.1, 5] yields exactly scale 2. -/
theorem C7_pinch_scale :
    (∀ (minScale maxScale : ℝ) (session : RegistryR.TouchSession)
      (newDist ncx ncy rl rt : ℝ), 0 < session.distance →
      (RegistryR.onTouchMovePinch minScale maxScale session newDist ncx ncy rl rt).scale =
        min maxScale (max minScale (session.scale * (newDist / session.distance)))) ∧
    (RegistryR.onTouchMovePinchTouches 0.1 5 ⟨100, 1, 0, 0, 100, 0⟩ 0 0 200 0 0 0).scale = 2 := by
  constructor
  · intro minScale maxScale session newDist ncx ncy rl rt hdist
    rfl
  · show (RegistryR.onTouchMovePinch 0.1 5 ⟨100, 1, 0, 0, 100, 0⟩
      (RegistryR.getTouchDistance 0 0 200 0) ((0 + 200) / 2) ((0 + 0) / 2) 0 0).scale = 2
    have hdist : RegistryR.getTouchDistance 0 0 200 0 = 200 := by
      rw [RegistryR.getTouchDistance,
        show ((0:ℝ) - 200) * ((0:ℝ) - 200) + ((0:ℝ) - 0) * ((0:ℝ) - 0) = 200^2 by norm_num]
      exact Real.sqrt_sq (by norm_num)
    show min 5 (max 0.1 ((1:ℝ) * (RegistryR.getTouchDistance 0 0 200 0 / 100))) = 2
    rw [hdist]
    norm_num [min_def, max_def]

/-- C7 witness: the clamp formula instantiated at the concrete snapshot
(distance 100, scale 1) and new distance 200. -/
theorem C7_pinch_scale_witness :
    (RegistryR.onTouchMovePinch 0.1 5 ⟨100, 1, 0, 0, 100, 0⟩ 200 100 0 0 0).scale =
      min 5 (max 0.1 ((RegistryR.TouchSession.mk 100 1 0 0 100 0).scale *
        (200 / (RegistryR.TouchSession.mk 100 1 0 0 100 0).distance))) :=
  C7_pinch_scale.1 0.1 5 ⟨100, 1, 0, 0, 100, 0⟩ 200 100 0 0 0 (by norm_num)

/-- C10 (confirmed): when neither step clamps (`minScale ≤ s` and
`s + zoomStep ≤ maxScale`), `zoomOut` after `zoomIn` around the same
container center restores scale, translateX and translateY exactly,
because the two anchored-offset ratios compose to the identity. -/
theorem C10_zoom_roundtrip (minScale maxScale zoomStep px py : ℚ)
    (prev : Registry.ZoomPanState) (h0 : 0 < minScale) (hstep : 0 ≤ zoomStep)
    (hlo : minScale ≤ prev.scale) (hhi : prev.scale + zoomStep ≤ maxScale) :
    (Registry.zoomOut minScale maxScale zoomStep px py
        (Registry.zoomIn minScale maxScale zoomStep px py prev)).scale = prev.scale ∧
    (Registry.zoomOut minScale maxScale zoomStep px py
        (Registry.zoomIn minScale maxScale zoomStep px py prev)).translateX = prev.translateX ∧
    (Registry.zoomOut minScale maxScale zoomStep px py
        (Registry.zoomIn minScale maxScale zoomStep px py prev)).translateY = prev.translateY := by
  have hspos : (0:ℚ) < prev.scale := lt_of_lt_of_le h0 hlo
  have hsdpos : (0:ℚ) < prev.scale + zoomStep := by linarith
  have hin : min maxScale (max minScale (prev.scale + zoomStep)) = prev.scale + zoomStep := by
    rw [max_eq_right (by linarith), min_eq_right hhi]
  simp only [Registry.zoomIn, Registry.zoomOut, Registry.applyZoomToPoint, hin]
  have hout : min maxScale (max minScale (prev.scale + zoomStep + -zoomStep)) = prev.scale := by
    rw [show prev.scale + zoomStep + -zoomStep = prev.scale by ring,
      max_eq_right hlo, min_eq_right (by linarith)]
  rw [hout]
  refine ⟨rfl, ?_, ?_⟩
  · field_simp
  · field_simp

/-- C10 witness: the round trip at the default configuration, starting
from scale 1 with translate (7, 9). -/
theorem C10_zoom_roundtrip_witness :
    (Registry.zoomOut 0.1 5 0.1 400 300
        (Registry.zoomIn 0.1 5 0.1 400 300 ⟨1, 7, 9, false⟩)).scale =
      (Registry.ZoomPanState.mk 1 7 9 false).scale ∧
    (Registry.zoomOut 0.1 5 0.1 400 300
        (Registry.zoomIn 0.1 5 0.1 400 300 ⟨1, 7, 9, false⟩)).translateX =
      (Registry.ZoomPanState.mk 1 7 9 false).translateX ∧
    (Registry.zoomOut 0.1 5 0.1 400 300
        (Registry.zoomIn 0.1 5 0.1 400 300 ⟨1, 7, 9, false⟩)).translateY =
      (Registry.ZoomPanState.mk 1 7 9 false).translateY :=
  C10_zoom_roundtrip 0.1 5 0.1 400 300 ⟨1, 7, 9, false⟩ (by norm_num)
    (by norm_num) (by norm_num) (by norm_num)

/-- C4 (amended): the high-performance loop stops rescheduling only when
the post-momentum deltas and velocity are within tolerance and no gesture
is active, and on stopping it snaps current exactly to target (the snapped
current is what `commitToState` writes to the shared transform state);
after a single `zoomIn()` from the settled default state the loop reaches
the snapped stopped state in 56 ticks.  (The earlier variant-1 loop stops
without snapping — see the counterexample.) -/
theorem C4_stop_snap_convergence :
    (∀ (s s' : PhysState), ComponentsV2.step s = (s', false) →
      s'.current = s'.target ∧
      s.isDragging = false ∧ s.isPinching = false ∧
      |(ComponentsV2.applyMomentum s).target.x - (ComponentsV2.applyMomentum s).current.x| ≤ 0.1 ∧
      |(ComponentsV2.applyMomentum s).target.y - (ComponentsV2.applyMomentum s).current.y| ≤ 0.1 ∧
      |(ComponentsV2.applyMomentum s).target.scale - (ComponentsV2.applyMomentum s).current.scale| ≤ 0.0001 ∧
      |(ComponentsV2.applyMomentum s).velocity.x| ≤ 0.1 ∧
      |(ComponentsV2.applyMomentum s).velocity.y| ≤ 0.1) ∧
    ((ComponentsV2.step (ComponentsV2.run 55 ComponentsV2.zoomInScenario)).2 = false ∧
     (ComponentsV2.run 56 ComponentsV2.zoomInScenario).current =
       (ComponentsV2.run 56 ComponentsV2.zoomInScenario).target) := by
  constructor
  · intro s s' h
    simp only [ComponentsV2.step] at h
    split at h
    · have hb := congrArg Prod.snd h
      simp at hb
    · next hcond =>
      push_neg at hcond
      obtain ⟨h1, h2, h3, h4, h5, h6, h7⟩ := hcond
      have hs' : s' = _ := (congrArg Prod.fst h).symm
      subst hs'
      exact ⟨rfl, Bool.not_eq_true s.isDragging ▸ h6,
        Bool.not_eq_true s.isPinching ▸ h7, h1, h2, h3, h4, h5⟩
  · exact ComponentsV2.run_zoomIn_stop

/-- C4 witness: the stop characterization applied to a settled state
(current = target, no velocity, no gesture), where one tick stops at once
with current equal to target. -/
theorem C4_stop_snap_witness :
    (PhysState.mk ⟨1, 0, 0⟩ ⟨1, 0, 0⟩ ⟨0, 0⟩ false false).current =
      (PhysState.mk ⟨1, 0, 0⟩ ⟨1, 0, 0⟩ ⟨0, 0⟩ false false).target ∧
    (PhysState.mk ⟨1, 0, 0⟩ ⟨1, 0, 0⟩ ⟨0, 0⟩ false false).isDragging = false ∧
    (PhysState.mk ⟨1, 0, 0⟩ ⟨1, 0, 0⟩ ⟨0, 0⟩ false false).isPinching = false ∧
    |(ComponentsV2.applyMomentum ⟨⟨1, 0, 0⟩, ⟨1, 0, 0⟩, ⟨0, 0⟩, false, false⟩).target.x -
      (ComponentsV2.applyMomentum ⟨⟨1, 0, 0⟩, ⟨1, 0, 0⟩, ⟨0, 0⟩, false, false⟩).current.x| ≤ 0.1 ∧
    |(ComponentsV2.applyMomentum ⟨⟨1, 0, 0⟩, ⟨1, 0, 0⟩, ⟨0, 0⟩, false, false⟩).target.y -
      (ComponentsV2.applyMomentum ⟨⟨1, 0, 0⟩, ⟨1, 0, 0⟩, ⟨0, 0⟩, false, false⟩).current.y| ≤ 0.1 ∧
    |(ComponentsV2.applyMomentum ⟨⟨1, 0, 0⟩, ⟨1, 0, 0⟩, ⟨0, 0⟩, false, false⟩).target.scale -
      (ComponentsV2.applyMomentum ⟨⟨1, 0, 0⟩, ⟨1, 0, 0⟩, ⟨0, 0⟩, false, false⟩).current.scale| ≤ 0.0001 ∧
    |(ComponentsV2.applyMomentum ⟨⟨1, 0, 0⟩, ⟨1, 0, 0⟩, ⟨0, 0⟩, false, false⟩).velocity.x| ≤ 0.1 ∧
    |(ComponentsV2.applyMomentum ⟨⟨1, 0, 0⟩, ⟨1, 0, 0⟩, ⟨0, 0⟩, false, false⟩).velocity.y| ≤ 0.1 :=
  C4_stop_snap_convergence.1 ⟨⟨1, 0, 0⟩, ⟨1, 0, 0⟩, ⟨0, 0⟩, false, false⟩
    ⟨⟨1, 0, 0⟩, ⟨1, 0, 0⟩, ⟨0, 0⟩, false, false⟩
    (by rw [ComponentsV2.step, ComponentsV2.applyMomentum_still]
        norm_num [abs_eq_max_neg, max_def])

/-- C4 counterexample: the variant-1 loop (`src/components/zoom-pan.tsx`
lines 152-165) stops rescheduling at a state within tolerance but commits
current WITHOUT snapping it to target: from target.x = 0.05, current.x = 0
it stops with current.x = 0.005 ≠ 0.05 = target.x. -/
theorem C4_v1_stop_without_snap :
    (ComponentsV1.step ⟨⟨1, 0.05, 0⟩, ⟨1, 0, 0⟩, ⟨0, 0⟩, false, false⟩).2 = false ∧
    (ComponentsV1.step ⟨⟨1, 0.05, 0⟩, ⟨1, 0, 0⟩, ⟨0, 0⟩, false, false⟩).1.current.x ≠
      (ComponentsV1.step ⟨⟨1, 0.05, 0⟩, ⟨1, 0, 0⟩, ⟨0, 0⟩, false, false⟩).1.target.x := by
  rw [ComponentsV1.step]
  norm_num [abs_eq_max_neg, max_def]

/-- C5 (amended): in the high-performance physics loop, from a released
drag with velocity (10, 0), friction 0.95 and timeScale 1 and no gesture,
target.x strictly increases and the velocity magnitude strictly decreases
each of the first 104 ticks; at tick 105 the velocity is set exactly to
zero and target.x never changes again.  (The registry coasting loop stops
with the residual velocity left unzeroed — see the counterexample.) -/
theorem C5_momentum_decay :
    (∀ n, n < 104 →
      (ComponentsV2.run n ComponentsV2.coastScenario).target.x <
        (ComponentsV2.run (n + 1) ComponentsV2.coastScenario).target.x ∧
      |(ComponentsV2.run (n + 1) ComponentsV2.coastScenario).velocity.x| <
        |(ComponentsV2.run n ComponentsV2.coastScenario).velocity.x|) ∧
    (ComponentsV2.run 105 ComponentsV2.coastScenario).velocity.x = 0 ∧
    (ComponentsV2.run 105 ComponentsV2.coastScenario).velocity.y = 0 ∧
    (∀ m, (ComponentsV2.run (105 + m) ComponentsV2.coastScenario).target.x =
        (ComponentsV2.run 105 ComponentsV2.coastScenario).target.x ∧
      (ComponentsV2.run (105 + m) ComponentsV2.coastScenario).velocity.x = 0) := by
  refine ⟨?_, ComponentsV2.run_coast_105.2.1, ComponentsV2.run_coast_105.2.2.1, ?_⟩
  · intro n hn
    obtain ⟨htx, hvx, _, _, _⟩ := ComponentsV2.run_coast_closed n (by omega)
    obtain ⟨htx', hvx', _, _, _⟩ := ComponentsV2.run_coast_closed (n + 1) (by omega)
    have hq : ((19:ℚ)/20)^(n+1) < (19/20)^n :=
      pow_lt_pow_right_of_lt_one₀ (by norm_num) (by norm_num) (by omega)
    constructor
    · rw [htx, htx']
      nlinarith
    · rw [hvx, hvx', abs_of_pos (by positivity), abs_of_pos (by positivity)]
      nlinarith
  · intro m
    exact ⟨(ComponentsV2.run_coast_after m).1, (ComponentsV2.run_coast_after m).2.1⟩

/-- C5 witness: the first tick of the coast scenario — target.x grows and
the velocity magnitude shrinks. -/
theorem C5_momentum_decay_witness :
    (ComponentsV2.run 0 ComponentsV2.coastScenario).target.x <
      (ComponentsV2.run 1 ComponentsV2.coastScenario).target.x ∧
    |(ComponentsV2.run 1 ComponentsV2.coastScenario).velocity.x| <
      |(ComponentsV2.run 0 ComponentsV2.coastScenario).velocity.x| :=
  C5_momentum_decay.1 0 (by norm_num)

/-- C5 counterexample: the registry coasting loop (`startMomentum`,
`src/registry/mermaidcn/zoom-pan.tsx` lines 90-112) stops rescheduling
once both velocity components drop below 0.05, but does NOT set the
velocity to zero: after 104 frames from velocity (10, 0) the loop halts
with vx = 10 * 0.95^104 ≠ 0. -/
theorem C5_registry_velocity_not_zeroed :
    (Registry.startMomentumStep (Registry.startMomentumRun 104 Registry.coastStart)).2 = false ∧
    (Registry.startMomentumRun 104 Registry.coastStart).vx ≠ 0 := by
  have h := Registry.startMomentumRun_closed 104 (by norm_num)
  have hstop : |10 * (19/20:ℚ)^104| < 0.05 ∧ |(0:ℚ)| < 0.05 := by
    rw [abs_of_pos (by positivity), abs_zero]
    norm_num
  constructor
  · rw [h, Registry.startMomentumStep]
    simp only [if_pos hstop]
  · rw [h]
    norm_num

/-- C6 (amended): the registry wheel handler normalizes line-mode deltas by
40 and page-mode deltas by 800 and multiplies the scale by
`exp (-normalizedDelta * 0.002)` before clamping; with deltaY = -100 in
pixel mode from scale 1 the pre-clamp scale is exactly `exp 0.2`.  The
canvas-variant wheel handler normalizes only line-mode deltas (page-mode
deltas are used raw) — see the counterexample. -/
theorem C6_wheel_normalization :
    (∀ d : ℝ, RegistryR.normalizeWheelDelta d 0 = d) ∧
    (∀ d : ℝ, RegistryR.normalizeWheelDelta d 1 = d * 40) ∧
    (∀ d : ℝ, RegistryR.normalizeWheelDelta d 2 = d * 800) ∧
    (∀ (minScale maxScale deltaY : ℝ) (deltaMode : ℕ) (mouseX mouseY : ℝ)
      (prev : RegistryR.StateR),
      (RegistryR.onWheel minScale maxScale deltaY deltaMode mouseX mouseY prev).scale =
        min maxScale (max minScale (prev.scale *
          Real.exp (-(RegistryR.normalizeWheelDelta deltaY deltaMode) * 0.002)))) ∧
    ((1:ℝ) * RegistryR.wheelScaleFactor (-100) 0 = Real.exp 0.2) ∧
    (∀ d : ℝ, Canvas.normalizeWheelDelta d 1 = d * 40) ∧
    (∀ d : ℝ, Canvas.normalizeWheelDelta d 2 = d) := by
  refine ⟨?_, ?_, ?_, ?_, ?_, ?_, ?_⟩
  · intro d
    norm_num [RegistryR.normalizeWheelDelta]
  · intro d
    norm_num [RegistryR.normalizeWheelDelta]
  · intro d
    norm_num [RegistryR.normalizeWheelDelta]
  · intro minScale maxScale deltaY deltaMode mouseX mouseY prev
    rfl
  · rw [one_mul, RegistryR.wheelScaleFactor,
      show -(RegistryR.normalizeWheelDelta (-100) 0) * 0.002 = (0.2:ℝ) by
        norm_num [RegistryR.normalizeWheelDelta]]
  · intro d
    norm_num [Canvas.normalizeWheelDelta]
  · intro d
    norm_num [Canvas.normalizeWheelDelta]

/-- C6 counterexample: a page-mode wheel event (deltaMode 2) in the canvas
variant is NOT multiplied by 800: with deltaY = -100 the normalized delta
is -100 (not -80000), so at scale 1 the pre-clamp scale is exp 0.15, not
the exp 120 the claimed x800 normalization (at the canvas sensitivity
0.0015) would give. -/
theorem C6_canvas_page_mode_raw :
    Canvas.normalizeWheelDelta (-100) 2 = -100 ∧
    Canvas.normalizeWheelDelta (-100) 2 ≠ (-100 : ℝ) * 800 ∧
    Canvas.wheelScaleFactor (-100) 2 = Real.exp 0.15 ∧
    Canvas.wheelScaleFactor (-100) 2 ≠ Real.exp 120 := by
  have h1 : Canvas.normalizeWheelDelta (-100) 2 = -100 := by
    norm_num [Canvas.normalizeWheelDelta]
  have h2 : Canvas.wheelScaleFactor (-100) 2 = Real.exp 0.15 := by
    rw [Canvas.wheelScaleFactor, h1]
    norm_num
  refine ⟨h1, ?_, h2, ?_⟩
  · rw [h1]
    norm_num
  · rw [h2, Ne, Real.exp_eq_exp]
    norm_num

/-- C8 (code bug): the wheel handler's clamp `Math.min (maxScale, Math.max
(minScale, prev.scale * scaleFactor))` does NOT reject a NaN resulting
scale, because ECMAScript `Math.min` / `Math.max` propagate NaN: with
deltaY = NaN the handler writes scale NaN to the target.  An infinite
deltaY (scaleFactor 0, resulting scale 0) IS clamped to minScale, as the
spec requires. -/
theorem C8_wheel_nan_propagates :
    JS.onWheelNewScale 0.1 5 (JS.Num.fin 1) JS.Num.nan = JS.Num.nan ∧
    JS.onWheelNewScale 0.1 5 (JS.Num.fin 1) JS.Num.inf = JS.Num.fin 0.1 := by
  constructor
  · rfl
  · rw [JS.onWheelNewScale, JS.neg]
    rw [show JS.mul JS.Num.ninf (JS.Num.fin 0.002) = JS.Num.ninf by
      rw [JS.mul]
      norm_num]
    rw [JS.exp]
    rw [show JS.mul (JS.Num.fin 1) (JS.Num.fin 0) = JS.Num.fin 0 by
      rw [JS.mul, one_mul]]
    rw [show JS.max2 (JS.Num.fin 0.1) (JS.Num.fin 0) = JS.Num.fin 0.1 by
      rw [JS.max2]
      norm_num]
    rw [JS.min2]
    norm_num
